import Mathlib

/-!
Shallow embedding of the WOOHAN core services: the memory service
(`services/memoryService`), the event service (`services/eventService`),
the identity service (`services/identityService`) and the semantic
service (`services/semanticService`).  Numbers are modelled as real
numbers; the stream of `Math.random()` draws consumed by a call is
passed in explicitly as a list; wall-clock timestamps (milliseconds
since the epoch) are explicit real parameters; thrown
`ValidationError` exceptions are modelled with `Except`.
-/

noncomputable section

open scoped Classical

namespace Woohan

/-- Numeric configuration options of module `_core/config` that the four
services read, with their schema defaults collected in `defaultConfig`. -/
structure Config where
  MEMORY_DIMENSION : ℕ
  LEARNING_RATE : ℝ
  GRADIENT_CLIP_NORM : ℝ
  SIGNIFICANCE_THRESHOLD : ℝ
  PRIVACY_EPSILON : ℝ
  PRIVACY_DELTA : ℝ

/-- The default values declared by the configuration schema. -/
def defaultConfig : Config where
  MEMORY_DIMENSION := 256
  LEARNING_RATE := 0.001
  GRADIENT_CLIP_NORM := 1.0
  SIGNIFICANCE_THRESHOLD := 0.5
  PRIVACY_EPSILON := 1.0
  PRIVACY_DELTA := 0.00001

/-- Errors thrown by the services (module `_core/errors`). -/
inductive ServiceError where
  | validation (msg : String)
  | notFound (msg : String)

/-- Euclidean norm of a vector, as the services compute it:
`Math.sqrt(v.reduce((sum, x) => sum + x * x, 0))`. -/
def euclideanNorm (v : List ℝ) : ℝ :=
  Real.sqrt ((v.map fun x => x * x).sum)

/-- Memory state record (`services/memoryService`, interface `MemoryState`). -/
structure MemoryState where
  userId : String
  dimension : ℕ
  state : List ℝ
  lastUpdate : ℝ
  eventCount : ℕ
  significantEventCount : ℕ
  totalLearningUpdates : ℕ

/-- `initializeMemory`: zero counters and a state vector of small random
noise, one entry `(u - 0.5) * 0.01` per `Math.random()` draw `u` taken
from `rand` (the source draws `dimension` of them). -/
def initializeMemory (cfg : Config) (userId : String) (rand : List ℝ)
    (now : ℝ) : MemoryState where
  userId := userId
  dimension := cfg.MEMORY_DIMENSION
  state := rand.map fun u => (u - 0.5) * 0.01
  lastUpdate := now
  eventCount := 0
  significantEventCount := 0
  totalLearningUpdates := 0

/-- `getMemoryState`: the source never queries the database; it returns a
freshly initialized state on every call. -/
def getMemoryState (cfg : Config) (userId : String) (rand : List ℝ)
    (now : ℝ) : MemoryState :=
  initializeMemory cfg userId rand now

/-- `applyTimeDecay`: exponential decay of every entry by
`decayFactor ^ timeDeltaDays`. -/
def applyTimeDecay (state : List ℝ) (lastUpdate : ℝ) (now : ℝ)
    (decayFactor : ℝ) : List ℝ :=
  let timeDeltaMs := now - lastUpdate
  let timeDeltaDays := timeDeltaMs / (1000 * 60 * 60 * 24)
  let decay := decayFactor ^ timeDeltaDays
  state.map fun value => value * decay

/-- `applyLSTMUpdate`: the simplified gated update
`tanh(value * 0.9) * (1 - learningRate) + tanh(embedding) * learningRate`
per dimension, with `embedding` read as `eventEmbedding[i] || 0`. -/
def applyLSTMUpdate (memoryState : List ℝ) (eventEmbedding : List ℝ)
    (learningRate : ℝ) : List ℝ :=
  (List.range memoryState.length).map fun i =>
    let value := memoryState.getD i 0
    let embedding := eventEmbedding.getD i 0
    let forgetGate := Real.tanh (value * 0.9)
    let inputGate := Real.tanh embedding
    forgetGate * (1 - learningRate) + inputGate * learningRate

/-- `calculateStateChange`: Euclidean distance between the old and the new
state, summing over the indices of the old state. -/
def calculateStateChange (oldState newState : List ℝ) : ℝ :=
  Real.sqrt (((List.range oldState.length).map fun i =>
    (newState.getD i 0 - oldState.getD i 0) *
      (newState.getD i 0 - oldState.getD i 0)).sum)

/-- The `metrics` component of a memory update result. -/
structure UpdateMetrics where
  significance : ℝ
  learningApplied : Prop
  stateChange : ℝ

/-- Memory update result (`interface MemoryUpdateResult`). -/
structure MemoryUpdateResult where
  userId : String
  updated : Prop
  memoryState : MemoryState
  metrics : UpdateMetrics

/-- Body of `updateMemory` after its two validation checks: load a fresh
state, decay it, and when the significance reaches the threshold apply
the gated update followed by gradient clipping.  The returned
`stateChange` metric is the one computed before clipping, exactly as in
the source. -/
def updateMemoryCore (cfg : Config) (userId : String)
    (eventEmbedding : List ℝ) (significance : ℝ) (rand : List ℝ)
    (tLoad tNow : ℝ) : MemoryUpdateResult :=
  let memoryState := getMemoryState cfg userId rand tLoad
  let decayedState := applyTimeDecay memoryState.state memoryState.lastUpdate tNow 0.99
  let threshold := cfg.SIGNIFICANCE_THRESHOLD
  let shouldLearn := threshold ≤ significance
  let learnResult : List ℝ × ℝ :=
    if shouldLearn then
      let learningRate := cfg.LEARNING_RATE * significance
      let updatedState := applyLSTMUpdate decayedState eventEmbedding learningRate
      let stateChange := calculateStateChange decayedState updatedState
      let clipNorm := cfg.GRADIENT_CLIP_NORM
      if clipNorm < stateChange then
        let scale := clipNorm / stateChange
        (((List.range updatedState.length).map fun i =>
            decayedState.getD i 0 +
              (updatedState.getD i 0 - decayedState.getD i 0) * scale),
          stateChange)
      else (updatedState, stateChange)
    else (decayedState, 0)
  { userId := userId
    updated := shouldLearn
    memoryState :=
      { memoryState with
        state := learnResult.1
        lastUpdate := tNow
        eventCount := memoryState.eventCount + 1
        significantEventCount :=
          if shouldLearn then memoryState.significantEventCount + 1
          else memoryState.significantEventCount
        totalLearningUpdates :=
          if shouldLearn then memoryState.totalLearningUpdates + 1
          else memoryState.totalLearningUpdates }
    metrics :=
      { significance := significance
        learningApplied := shouldLearn
        stateChange := learnResult.2 } }

/-- `updateMemory`: validate the significance range and the embedding
dimension, then run `updateMemoryCore`. -/
def updateMemory (cfg : Config) (userId : String) (eventEmbedding : List ℝ)
    (significance : ℝ) (rand : List ℝ) (tLoad tNow : ℝ) :
    Except ServiceError MemoryUpdateResult :=
  if significance < 0 ∨ 1 < significance then
    .error (.validation "Significance must be between 0 and 1")
  else if eventEmbedding.length ≠ cfg.MEMORY_DIMENSION then
    .error (.validation "Event embedding dimension mismatch")
  else
    .ok (updateMemoryCore cfg userId eventEmbedding significance rand tLoad tNow)

/-! ### Event service (`services/eventService`) -/

/-- The timestamp field of an event input: either a proper `Date`
(milliseconds since the epoch) or a value that is not a `Date`
instance. -/
inductive TimestampField where
  | date (ms : ℝ)
  | malformed

/-- The two entries of the opaque metadata bag that
`calculateSignificance` reads.  A metadata timestamp is modelled as its
epoch milliseconds; `none` stands for an absent entry. -/
structure EventMetadata where
  importance : Option ℝ
  timestamp : Option ℝ

/-- Raw event input (`interface EventInput`).  `userId` and `content`
are `none` when the caller passed a missing or non-string value. -/
structure EventInput where
  userId : Option String
  content : Option String
  metadata : EventMetadata
  timestamp : Option TimestampField

/-- `validateEvent`: userId and content must be non-empty strings, the
content length must lie in [5, 10000], and a supplied timestamp must be
a `Date` instance. -/
def validateEvent (event : EventInput) : Except ServiceError Unit :=
  match event.userId with
  | none => .error (.validation "Invalid userId")
  | some uid =>
    if uid = "" then .error (.validation "Invalid userId")
    else match event.content with
      | none => .error (.validation "Invalid content")
      | some content =>
        if content = "" then .error (.validation "Invalid content")
        else if content.length < 5 then
          .error (.validation "Content too short (minimum 5 characters)")
        else if 10000 < content.length then
          .error (.validation "Content too long (maximum 10000 characters)")
        else match event.timestamp with
          | some .malformed => .error (.validation "Invalid timestamp")
          | _ => .ok ()

/-- The character-code hash used by `createEmbedding`. -/
def contentHash (content : String) : ℕ :=
  (content.data.map fun c => c.toNat).sum

/-- `createEmbedding`: deterministic hash-based embedding
`sin((hash + i) * 0.1) * 0.5 + cos((hash + i) * 0.05) * 0.3`, normalized
by `norm + 1e-8`. -/
def createEmbedding (cfg : Config) (content : String) : List ℝ :=
  let hash : ℝ := contentHash content
  let embedding := (List.range cfg.MEMORY_DIMENSION).map fun i =>
    Real.sin ((hash + i) * 0.1) * 0.5 + Real.cos ((hash + i) * 0.05) * 0.3
  let norm := euclideanNorm embedding
  embedding.map fun v => v / (norm + 1e-8)

/-- `calculateSignificance`: additive score with base 0.5, length
factor, embedding-magnitude factor, optional importance factor (skipped
for the falsy value 0), optional recency factor, clamped to [0, 1]. -/
def calculateSignificance (content : String) (embedding : List ℝ)
    (metadata : EventMetadata) (now : ℝ) : ℝ :=
  let base : ℝ := 0.5
  let lengthFactor := min ((content.length : ℝ) / 500) 1.0 * 0.2
  let magnitude := euclideanNorm embedding
  let magnitudeFactor := min magnitude 1.0 * 0.2
  let importanceFactor :=
    match metadata.importance with
    | some importance => if importance = 0 then 0 else min importance 1.0 * 0.2
    | none => 0
  let recencyFactor :=
    match metadata.timestamp with
    | some ts =>
      let ageMs := now - ts
      let ageDays := ageMs / (1000 * 60 * 60 * 24)
      Real.exp (-ageDays / 30) * 0.1
    | none => 0
  let score := base + lengthFactor + magnitudeFactor + importanceFactor +
    recencyFactor
  min (max score 0) 1

/-- The significance formula exactly as the spec words it, for
comparison with `calculateSignificance`: the clamp to [0, 1] of
`0.5 + min(len/500, 1) * 0.2 + min(norm, 1) * 0.2` plus
`min(importance, 1) * 0.2` when an importance is provided and
`exp(-ageDays / 30) * 0.1` when a timestamp is provided. -/
def significanceSpecFormula (content : String) (embedding : List ℝ)
    (metadata : EventMetadata) (now : ℝ) : ℝ :=
  let lengthFactor := min ((content.length : ℝ) / 500) 1.0 * 0.2
  let magnitudeFactor := min (euclideanNorm embedding) 1.0 * 0.2
  let importanceFactor :=
    match metadata.importance with
    | some importance => min importance 1.0 * 0.2
    | none => 0
  let recencyFactor :=
    match metadata.timestamp with
    | some ts =>
      Real.exp (-((now - ts) / (1000 * 60 * 60 * 24)) / 30) * 0.1
    | none => 0
  min (max (0.5 + lengthFactor + magnitudeFactor + importanceFactor +
    recencyFactor) 0) 1

/-- Processed event (`interface ProcessedEvent`), restricted to the
fields with algorithmic content. -/
structure ProcessedEvent where
  userId : String
  content : String
  embedding : List ℝ
  significance : ℝ
  timestamp : Option TimestampField

/-- Event processing result (`interface EventProcessingResult`). -/
structure EventProcessingResult where
  event : ProcessedEvent
  significant : Prop
  learningTriggered : Prop

/-- Body of `processEvent` after validation. -/
def processEventCore (cfg : Config) (event : EventInput) (now : ℝ) :
    EventProcessingResult :=
  let content := event.content.getD ""
  let embedding := createEmbedding cfg content
  let significance := calculateSignificance content embedding event.metadata now
  let threshold := cfg.SIGNIFICANCE_THRESHOLD
  let significant := threshold ≤ significance
  { event :=
      { userId := event.userId.getD ""
        content := content
        embedding := embedding
        significance := significance
        timestamp := event.timestamp }
    significant := significant
    learningTriggered := significant }

/-- `processEvent`: validate, embed, score, and decide whether learning
is triggered. -/
def processEvent (cfg : Config) (event : EventInput) (now : ℝ) :
    Except ServiceError EventProcessingResult :=
  match validateEvent event with
  | .error err => .error err
  | .ok _ => .ok (processEventCore cfg event now)

/-! ### Identity service (`services/identityService`) and the cosine
similarity of the semantic service (`services/semanticService`) -/

/-- The three privacy levels. -/
inductive PrivacyLevel where
  | high
  | medium
  | low

/-- Encoded identity (`interface EncodedIdentity`), restricted to the
fields with algorithmic content. -/
structure EncodedIdentity where
  userId : String
  embedding : List ℝ
  privacyEpsilon : ℝ
  privacyDelta : ℝ
  privacyLevel : PrivacyLevel
  dataFields : List String
  noiseScale : ℝ

/-- `createIdentityEmbedding`: deterministic hash-based embedding of the
serialized identity data (the 32-bit string hash is taken as an input),
normalized by `norm + 1e-8`. -/
def createIdentityEmbedding (cfg : Config) (hash : ℤ) : List ℝ :=
  let embedding := (List.range cfg.MEMORY_DIMENSION).map fun i =>
    let seed : ℝ := hash + i
    Real.sin (seed * 0.1) * 0.3 + Real.cos (seed * 0.05) * 0.2 +
      Real.sin (seed * 0.02) * 0.1
  let norm := euclideanNorm embedding
  embedding.map fun v => v / (norm + 1e-8)

/-- `calculateNoiseScale`: `sensitivity / adjustedEpsilon` with the
epsilon adjusted by privacy level. -/
def calculateNoiseScale (cfg : Config) (privacyLevel : PrivacyLevel)
    (sensitivity : ℝ) : ℝ :=
  let epsilon := cfg.PRIVACY_EPSILON
  let adjustedEpsilon :=
    match privacyLevel with
    | .high => epsilon / 3
    | .low => epsilon * 1.5
    | .medium => epsilon
  sensitivity / adjustedEpsilon

/-- `addLaplaceNoise`: `value + scale * log(u) * sign(v - 0.5)` where
`u` and `v` are the two uniform draws of the call. -/
def addLaplaceNoise (value : ℝ) (scale : ℝ) (u v : ℝ) : ℝ :=
  let noise := scale * Real.log u * Real.sign (v - 0.5)
  value + noise

/-- `applyDifferentialPrivacy`: noise every coordinate and renormalize
by `norm + 1e-8`; the uniform draws of the coordinates are read off the
lists `us` and `vs`. -/
def applyDifferentialPrivacy (cfg : Config) (embedding : List ℝ)
    (privacyLevel : PrivacyLevel) (us vs : List ℝ) : List ℝ × ℝ :=
  let noiseScale := calculateNoiseScale cfg privacyLevel 1.0
  let noised := (List.range embedding.length).map fun i =>
    addLaplaceNoise (embedding.getD i 0) noiseScale (us.getD i 1) (vs.getD i 1)
  let norm := euclideanNorm noised
  (noised.map fun v => v / (norm + 1e-8), noiseScale)

/-- Body of `encodeIdentity` after validation: build the base embedding,
noise it, and record the adjusted epsilon
`PRIVACY_EPSILON * (0.33 | 1 | 1.5)`. -/
def encodeIdentityCore (cfg : Config) (userId : String) (dataHash : ℤ)
    (dataFields : List String) (privacyLevel : Option PrivacyLevel)
    (us vs : List ℝ) : EncodedIdentity :=
  let level := privacyLevel.getD .medium
  let baseEmbedding := createIdentityEmbedding cfg dataHash
  let dp := applyDifferentialPrivacy cfg baseEmbedding level us vs
  let actualEpsilon := cfg.PRIVACY_EPSILON *
    (match level with
     | .high => 0.33
     | .low => 1.5
     | .medium => 1)
  { userId := userId
    embedding := dp.1
    privacyEpsilon := actualEpsilon
    privacyDelta := cfg.PRIVACY_DELTA
    privacyLevel := level
    dataFields := dataFields
    noiseScale := dp.2 }

/-- `encodeIdentity`: validate that the identity data bag is non-empty,
then encode. -/
def encodeIdentity (cfg : Config) (userId : Option String) (dataHash : ℤ)
    (dataFields : List String) (privacyLevel : Option PrivacyLevel)
    (us vs : List ℝ) : Except ServiceError EncodedIdentity :=
  match userId with
  | none => .error (.validation "Invalid userId")
  | some uid =>
    if uid = "" then .error (.validation "Invalid userId")
    else if dataFields = [] then
      .error (.validation "Identity data cannot be empty")
    else .ok (encodeIdentityCore cfg uid dataHash dataFields privacyLevel us vs)

/-- `calculatePrivacyLoss`: `epsilon * sqrt(queryCount)`. -/
def calculatePrivacyLoss (cfg : Config) (queryCount : ℕ) : ℝ :=
  cfg.PRIVACY_EPSILON * Real.sqrt queryCount

/-- Identity similarity result (`interface IdentitySimilarity`). -/
structure IdentitySimilarity where
  userId1 : String
  userId2 : String
  similarity : ℝ
  privacyLoss : ℝ

/-- `compareIdentities`: dimension check, cosine similarity with the
zero-denominator policy, and a privacy-loss charge for the comparison. -/
def compareIdentities (cfg : Config)
    (identity1 identity2 : EncodedIdentity) :
    Except ServiceError IdentitySimilarity :=
  if identity1.embedding.length ≠ identity2.embedding.length then
    .error (.validation "Identity embeddings have different dimensions")
  else
    let n := identity1.embedding.length
    let dotProduct := ((List.range n).map fun i =>
      identity1.embedding.getD i 0 * identity2.embedding.getD i 0).sum
    let norm1 := ((List.range n).map fun i =>
      identity1.embedding.getD i 0 * identity1.embedding.getD i 0).sum
    let norm2 := ((List.range n).map fun i =>
      identity2.embedding.getD i 0 * identity2.embedding.getD i 0).sum
    let denominator := Real.sqrt norm1 * Real.sqrt norm2
    let similarity := if denominator = 0 then 0 else dotProduct / denominator
    let privacyLoss := calculatePrivacyLoss cfg 1
    .ok { userId1 := identity1.userId
          userId2 := identity2.userId
          similarity := similarity
          privacyLoss := privacyLoss }

/-- `calculateAggregateLoss`: the advanced-composition factor
`sqrt(2 * ln(2 / delta))` times the square root of the sum of squared
epsilons; `operations` is the list of the epsilons of the operations. -/
def calculateAggregateLoss (cfg : Config) (operations : List ℝ) : ℝ :=
  let delta := cfg.PRIVACY_DELTA
  let sumSquares := (operations.map fun epsilon => epsilon * epsilon).sum
  let factor := Real.sqrt (2 * Real.log (2 / delta))
  factor * Real.sqrt sumSquares

/-- `calculateCosineSimilarity` (semantic service): dimension check,
then cosine similarity with the zero-denominator policy. -/
def calculateCosineSimilarity (vec1 vec2 : List ℝ) :
    Except ServiceError ℝ :=
  if vec1.length ≠ vec2.length then
    .error (.validation "Vector dimensions must match")
  else
    let n := vec1.length
    let dotProduct := ((List.range n).map fun i =>
      vec1.getD i 0 * vec2.getD i 0).sum
    let norm1 := ((List.range n).map fun i =>
      vec1.getD i 0 * vec1.getD i 0).sum
    let norm2 := ((List.range n).map fun i =>
      vec2.getD i 0 * vec2.getD i 0).sum
    let denominator := Real.sqrt norm1 * Real.sqrt norm2
    if denominator = 0 then .ok 0
    else .ok (dotProduct / denominator)

/-! ### Helper lemmas -/

theorem getD_range_map (n : ℕ) (f : ℕ → ℝ) (i : ℕ) (hi : i < n) :
    ((List.range n).map f).getD i 0 = f i := by
  rw [List.getD_eq_getElem?_getD, List.getElem?_map, List.getElem?_range hi]
  rfl

/-! ### Claim C10 -/

/-- Claim C10: `getMemoryState` never loads stored state: on every call
it returns the freshly initialized `MemoryState`, whose three counters
are zero; consequently the `MemoryState` returned by any single
`updateMemory` call (through its body `updateMemoryCore`) has
`eventCount = 1`, regardless of how many updates preceded it. -/
theorem C10_getMemoryState_always_fresh :
    (∀ (cfg : Config) (userId : String) (rand : List ℝ) (now : ℝ),
      getMemoryState cfg userId rand now = initializeMemory cfg userId rand now ∧
      (getMemoryState cfg userId rand now).eventCount = 0 ∧
      (getMemoryState cfg userId rand now).significantEventCount = 0 ∧
      (getMemoryState cfg userId rand now).totalLearningUpdates = 0) ∧
    (∀ (cfg : Config) (userId : String) (eventEmbedding : List ℝ)
      (significance : ℝ) (rand : List ℝ) (tLoad tNow : ℝ),
      (updateMemoryCore cfg userId eventEmbedding significance rand
        tLoad tNow).memoryState.eventCount = 1) := by
  constructor
  · intro cfg userId rand now
    exact ⟨rfl, rfl, rfl, rfl⟩
  · intro cfg userId eventEmbedding significance rand tLoad tNow
    rfl

/-! ### Claim C6 -/

/-- Claim C6: for a positive configured base epsilon, the epsilon
recorded by `encodeIdentity` is strictly smaller for privacy level high
than for medium, and strictly smaller for medium than for low. -/
theorem C6_epsilon_strictly_decreasing (cfg : Config) (userId : String)
    (dataHash : ℤ) (dataFields : List String) (us vs : List ℝ)
    (hpos : 0 < cfg.PRIVACY_EPSILON) :
    (encodeIdentityCore cfg userId dataHash dataFields
        (some .high) us vs).privacyEpsilon <
      (encodeIdentityCore cfg userId dataHash dataFields
        (some .medium) us vs).privacyEpsilon ∧
    (encodeIdentityCore cfg userId dataHash dataFields
        (some .medium) us vs).privacyEpsilon <
      (encodeIdentityCore cfg userId dataHash dataFields
        (some .low) us vs).privacyEpsilon := by
  simp only [encodeIdentityCore, Option.getD_some]
  constructor
  · nlinarith
  · nlinarith

/-- Witness for C6 at the default configuration. -/
theorem C6_epsilon_strictly_decreasing_witness :
    (encodeIdentityCore defaultConfig "u1" 0 ["name"]
        (some .high) [] []).privacyEpsilon <
      (encodeIdentityCore defaultConfig "u1" 0 ["name"]
        (some .medium) [] []).privacyEpsilon :=
  (C6_epsilon_strictly_decreasing defaultConfig "u1" 0 ["name"] [] []
    (by norm_num [defaultConfig])).1

/-! ### Claim C8 -/

/-- Claim C8: `calculateCosineSimilarity` and `compareIdentities` fail
with the dimension-mismatch `ValidationError` whenever their two input
vectors have unequal lengths, and return no similarity value. -/
theorem C8_dimension_mismatch (vec1 vec2 : List ℝ)
    (h : vec1.length ≠ vec2.length) (cfg : Config)
    (identity1 identity2 : EncodedIdentity)
    (h2 : identity1.embedding.length ≠ identity2.embedding.length) :
    calculateCosineSimilarity vec1 vec2 =
      .error (.validation "Vector dimensions must match") ∧
    compareIdentities cfg identity1 identity2 =
      .error (.validation "Identity embeddings have different dimensions") := by
  constructor
  · simp [calculateCosineSimilarity, h]
  · simp [compareIdentities, h2]

/-- Witness for C8 with embeddings of lengths 256 and 100, the concrete
scenario of the spec. -/
theorem C8_dimension_mismatch_witness :
    calculateCosineSimilarity (List.replicate 256 (0 : ℝ))
        (List.replicate 100 (0 : ℝ)) =
      .error (.validation "Vector dimensions must match") ∧
    compareIdentities defaultConfig
        { userId := "a", embedding := List.replicate 256 (0 : ℝ),
          privacyEpsilon := 1, privacyDelta := 0.00001,
          privacyLevel := .medium, dataFields := [], noiseScale := 1 }
        { userId := "b", embedding := List.replicate 100 (0 : ℝ),
          privacyEpsilon := 1, privacyDelta := 0.00001,
          privacyLevel := .medium, dataFields := [], noiseScale := 1 } =
      .error (.validation "Identity embeddings have different dimensions") :=
  C8_dimension_mismatch (List.replicate 256 0) (List.replicate 100 0)
    (by norm_num) defaultConfig _ _ (by norm_num)

/-! ### Claim C2 -/

/-- Claim C2: for a valid call with significance strictly below the
significance threshold, the event count increments by exactly one, the
significant-event and learning-update counters keep the values of the
loaded state, the returned state-change metric is 0, and the persisted
vector is exactly the time-decayed vector (no blend applied). -/
theorem C2_below_threshold_frame (cfg : Config) (userId : String)
    (eventEmbedding : List ℝ) (significance : ℝ) (rand : List ℝ)
    (tLoad tNow : ℝ) (hsig0 : 0 ≤ significance) (hsig1 : significance ≤ 1)
    (hdim : eventEmbedding.length = cfg.MEMORY_DIMENSION)
    (hbelow : significance < cfg.SIGNIFICANCE_THRESHOLD) :
    updateMemory cfg userId eventEmbedding significance rand tLoad tNow =
      .ok (updateMemoryCore cfg userId eventEmbedding significance rand
        tLoad tNow) ∧
    (updateMemoryCore cfg userId eventEmbedding significance rand
        tLoad tNow).memoryState.eventCount =
      (getMemoryState cfg userId rand tLoad).eventCount + 1 ∧
    (updateMemoryCore cfg userId eventEmbedding significance rand
        tLoad tNow).memoryState.significantEventCount =
      (getMemoryState cfg userId rand tLoad).significantEventCount ∧
    (updateMemoryCore cfg userId eventEmbedding significance rand
        tLoad tNow).memoryState.totalLearningUpdates =
      (getMemoryState cfg userId rand tLoad).totalLearningUpdates ∧
    (updateMemoryCore cfg userId eventEmbedding significance rand
        tLoad tNow).metrics.stateChange = 0 ∧
    (updateMemoryCore cfg userId eventEmbedding significance rand
        tLoad tNow).memoryState.state =
      applyTimeDecay (getMemoryState cfg userId rand tLoad).state tLoad
        tNow 0.99 := by
  have hno : ¬ (cfg.SIGNIFICANCE_THRESHOLD ≤ significance) := not_le.mpr hbelow
  have hval : ¬ (significance < 0 ∨ 1 < significance) := by
    push_neg
    exact ⟨hsig0, hsig1⟩
  refine ⟨?_, ?_, ?_, ?_, ?_, ?_⟩
  · simp [updateMemory, hval, hdim]
  · simp [updateMemoryCore]
  · simp [updateMemoryCore, hno]
  · simp [updateMemoryCore, hno]
  · simp [updateMemoryCore, hno]
  · simp [updateMemoryCore, hno, getMemoryState, initializeMemory]

/-- Witness for C2: a below-threshold update at the default
configuration reports a zero state change. -/
theorem C2_below_threshold_frame_witness :
    (updateMemoryCore defaultConfig "u1" (List.replicate 256 (0.1 : ℝ)) 0.2
        (List.replicate 256 (0.5 : ℝ)) 0 0).metrics.stateChange = 0 :=
  (C2_below_threshold_frame defaultConfig "u1" (List.replicate 256 0.1) 0.2
    (List.replicate 256 0.5) 0 0 (by norm_num) (by norm_num)
    (by norm_num [defaultConfig]) (by norm_num [defaultConfig])).2.2.2.2.1

/-! ### Claim C4 -/

/-- Claim C4: for every event, the computed significance equals the
clamp to [0,1] of the additive formula of the spec: base 0.5 plus the
length, embedding-magnitude, optional importance and optional recency
factors. -/
theorem C4_significance_matches_formula (content : String)
    (embedding : List ℝ) (metadata : EventMetadata) (now : ℝ) :
    calculateSignificance content embedding metadata now =
      significanceSpecFormula content embedding metadata now := by
  rcases metadata with ⟨imp, ts⟩
  rcases imp with _ | imp
  · rfl
  · rcases eq_or_ne imp 0 with h | h
    · subst h
      unfold calculateSignificance significanceSpecFormula
      dsimp only
      rw [if_pos rfl, min_eq_left (by norm_num : (0 : ℝ) ≤ 1.0)]
      ring_nf
    · unfold calculateSignificance significanceSpecFormula
      dsimp only
      rw [if_neg h]

/-! ### Claim C7 -/

theorem validateEvent_ok_iff (uid : String) (huid : uid ≠ "")
    (content : Option String) (metadata : EventMetadata)
    (ts : Option TimestampField) :
    validateEvent ⟨some uid, content, metadata, ts⟩ = .ok () ↔
      ∃ c, content = some c ∧ 5 ≤ c.length ∧ c.length ≤ 10000 ∧
        ts ≠ some TimestampField.malformed := by
  rcases content with _ | c
  · simp [validateEvent, huid]
  · simp only [validateEvent, if_neg huid]
    by_cases hc : c = ""
    · subst hc
      simp
    · rw [if_neg hc]
      by_cases h5 : c.length < 5
      · simp only [if_pos h5]
        constructor
        · intro h
          cases h
        · rintro ⟨c', hc', h5', _⟩
          cases hc'
          omega
      · rw [if_neg h5]
        by_cases h10 : 10000 < c.length
        · simp only [if_pos h10]
          constructor
          · intro h
            cases h
          · rintro ⟨c', hc', _, h10', _⟩
            cases hc'
            omega
        · rw [if_neg h10]
          rcases ts with _ | tf
          · simp only []
            constructor
            · intro _
              exact ⟨c, rfl, by omega, by omega, by simp⟩
            · intro _
              trivial
          · rcases tf with ms | _
            · simp only []
              constructor
              · intro _
                exact ⟨c, rfl, by omega, by omega, by simp⟩
              · intro _
                trivial
            · simp only []
              constructor
              · intro h
                cases h
              · rintro ⟨c', hc', _, _, hts⟩
                exact absurd rfl hts

theorem validateEvent_error_validation (event : EventInput)
    (err : ServiceError) (h : validateEvent event = .error err) :
    ∃ msg, err = ServiceError.validation msg := by
  rcases event with ⟨uid, content, metadata, ts⟩
  rcases uid with _ | uid
  · simp only [validateEvent] at h
    cases h
    exact ⟨_, rfl⟩
  · rcases content with _ | c
    · simp only [validateEvent] at h
      split_ifs at h <;> (cases h; exact ⟨_, rfl⟩)
    · rcases ts with _ | tf
      · simp only [validateEvent] at h
        split_ifs at h <;> (cases h <;> exact ⟨_, rfl⟩)
      · rcases tf with ms | _
        · simp only [validateEvent] at h
          split_ifs at h <;> (cases h <;> exact ⟨_, rfl⟩)
        · simp only [validateEvent] at h
          split_ifs at h <;> (cases h; exact ⟨_, rfl⟩)

/-- Claim C7: with a well-formed userId, `processEvent` accepts an event
exactly when its content is a string of 5 to 10000 characters inclusive
and the timestamp, when supplied, is a proper date; every rejection is a
`ValidationError` and produces no processed event. -/
theorem C7_processEvent_validation (cfg : Config) (uid : String)
    (huid : uid ≠ "") (content : Option String) (metadata : EventMetadata)
    (ts : Option TimestampField) (now : ℝ) :
    ((∃ r, processEvent cfg ⟨some uid, content, metadata, ts⟩ now = .ok r) ↔
      ∃ c, content = some c ∧ 5 ≤ c.length ∧ c.length ≤ 10000 ∧
        ts ≠ some TimestampField.malformed) ∧
    ∀ err, processEvent cfg ⟨some uid, content, metadata, ts⟩ now =
        .error err →
      ∃ msg, err = ServiceError.validation msg := by
  constructor
  · rw [← validateEvent_ok_iff uid huid content metadata ts]
    constructor
    · rintro ⟨r, hr⟩
      unfold processEvent at hr
      rcases hv : validateEvent ⟨some uid, content, metadata, ts⟩ with e | u
      · rw [hv] at hr
        cases hr
      · cases u
        rfl
    · intro hok
      refine ⟨processEventCore cfg ⟨some uid, content, metadata, ts⟩ now, ?_⟩
      unfold processEvent
      rw [hok]
  · intro err herr
    unfold processEvent at herr
    rcases hv : validateEvent ⟨some uid, content, metadata, ts⟩ with e | u
    · rw [hv] at herr
      cases herr
      exact validateEvent_error_validation _ _ hv
    · rw [hv] at herr
      cases herr

/-- Witness for C7: the concrete event with content of length 5 is
accepted. -/
theorem C7_processEvent_validation_witness :
    ∃ r, processEvent defaultConfig
      ⟨some "u1", some "hello", ⟨none, none⟩, none⟩ 0 = .ok r :=
  (C7_processEvent_validation defaultConfig "u1" (by decide) (some "hello")
    ⟨none, none⟩ none 0).1.mpr ⟨"hello", rfl, by decide, by decide, by simp⟩

/-! ### Claim C9 -/

/-- Counterexample for C9: the event with content of length 5 and
caller importance -5 passes validation, yet its significance is below
0.5 and learning is not triggered — `validateEvent` never checks the
metadata importance, so the importance factor can be negative. -/
theorem C9_counterexample :
    validateEvent ⟨some "u1", some "hello", ⟨some (-5), none⟩, none⟩ =
      .ok () ∧
    calculateSignificance "hello" (createEmbedding defaultConfig "hello")
      ⟨some (-5), none⟩ 0 < 0.5 ∧
    ¬ (processEventCore defaultConfig
        ⟨some "u1", some "hello", ⟨some (-5), none⟩, none⟩
        0).learningTriggered := by
  have hs : calculateSignificance "hello"
      (createEmbedding defaultConfig "hello") ⟨some (-5), none⟩ 0 < 0.5 := by
    unfold calculateSignificance
    dsimp only
    rw [if_neg (by norm_num : (-5 : ℝ) ≠ 0)]
    apply lt_of_le_of_lt (min_le_left _ _)
    refine max_lt ?_ (by norm_num)
    nlinarith [min_le_right (("hello".length : ℝ) / 500) 1.0,
      min_le_right (euclideanNorm (createEmbedding defaultConfig "hello")) 1.0,
      min_eq_left (show (-5 : ℝ) ≤ 1.0 by norm_num)]
  refine ⟨rfl, hs, ?_⟩
  intro htrig
  have hle : defaultConfig.SIGNIFICANCE_THRESHOLD ≤
      calculateSignificance "hello" (createEmbedding defaultConfig "hello")
        ⟨some (-5), none⟩ 0 := htrig
  rw [show defaultConfig.SIGNIFICANCE_THRESHOLD = 0.5 from rfl] at hle
  linarith

/-- Every event whose metadata importance, when present, is
non-negative scores at least the base 0.5. -/
theorem calculateSignificance_ge_base (content : String)
    (embedding : List ℝ) (metadata : EventMetadata) (now : ℝ)
    (himp : ∀ imp, metadata.importance = some imp → 0 ≤ imp) :
    (0.5 : ℝ) ≤ calculateSignificance content embedding metadata now := by
  rcases metadata with ⟨imp, ts⟩
  have hlf : 0 ≤ min ((content.length : ℝ) / 500) 1.0 * 0.2 :=
    mul_nonneg (le_min (by positivity) (by norm_num)) (by norm_num)
  have hmf : 0 ≤ min (euclideanNorm embedding) 1.0 * 0.2 :=
    mul_nonneg (le_min (Real.sqrt_nonneg _) (by norm_num)) (by norm_num)
  unfold calculateSignificance
  dsimp only
  rcases imp with _ | i
  · rcases ts with _ | t
    · refine le_min (le_max_of_le_left ?_) (by norm_num)
      linarith
    · have hrf : 0 ≤ Real.exp (-((now - t) / (1000 * 60 * 60 * 24)) / 30) * 0.1 := by
        positivity
      refine le_min (le_max_of_le_left ?_) (by norm_num)
      linarith
  · have hi : 0 ≤ i := himp i rfl
    have hif : (0 : ℝ) ≤ if i = 0 then 0 else min i 1.0 * 0.2 := by
      rcases eq_or_ne i 0 with h0 | h0
      · rw [if_pos h0]
      · rw [if_neg h0]
        exact mul_nonneg (le_min hi (by norm_num)) (by norm_num)
    rcases ts with _ | t
    · refine le_min (le_max_of_le_left ?_) (by norm_num)
      linarith
    · have hrf : 0 ≤ Real.exp (-((now - t) / (1000 * 60 * 60 * 24)) / 30) * 0.1 := by
        positivity
      refine le_min (le_max_of_le_left ?_) (by norm_num)
      linarith

/-- Claim C9 (amended): for every event that passes validation and whose
metadata importance, when present, is non-negative, the significance is
at least 0.5; under the default threshold 0.5 and the inclusive
comparison, every such processed event is significant and triggers
learning. -/
theorem C9_amended_learning_triggered (event : EventInput) (now : ℝ)
    (r : EventProcessingResult)
    (himp : ∀ imp, event.metadata.importance = some imp → 0 ≤ imp)
    (hok : processEvent defaultConfig event now = .ok r) :
    (0.5 : ℝ) ≤ r.event.significance ∧ r.significant ∧
      r.learningTriggered := by
  unfold processEvent at hok
  rcases hv : validateEvent event with e | u
  · rw [hv] at hok
    cases hok
  · rw [hv] at hok
    cases hok
    have hge := calculateSignificance_ge_base (event.content.getD "")
      (createEmbedding defaultConfig (event.content.getD ""))
      event.metadata now himp
    exact ⟨hge, hge, hge⟩

/-- Witness for the amended C9: an importance-free event of length 5 is
scored at least 0.5. -/
theorem C9_amended_learning_triggered_witness :
    (0.5 : ℝ) ≤ (processEventCore defaultConfig
      ⟨some "u1", some "hello", ⟨none, none⟩, none⟩
      0).event.significance :=
  (C9_amended_learning_triggered
    ⟨some "u1", some "hello", ⟨none, none⟩, none⟩ 0
    (processEventCore defaultConfig
      ⟨some "u1", some "hello", ⟨none, none⟩, none⟩ 0)
    (by intro imp h; cases h) rfl).1

/-! ### Claim C1 -/

set_option maxRecDepth 8000 in
/-- Claim C1 is refuted by the code (the repository test suite expects a
unit norm): `updateMemory` never renormalizes.  A valid below-threshold
update persists the decayed noise vector; with the draw 0.5 the noise is
the zero vector, so the persisted vector has norm 0, which is not within
1e-6 of 1. -/
theorem C1_no_renormalization :
    updateMemory defaultConfig "u1" (List.replicate 256 (0.1 : ℝ)) 0.2
        (List.replicate 256 (0.5 : ℝ)) 0 0 =
      .ok (updateMemoryCore defaultConfig "u1"
        (List.replicate 256 (0.1 : ℝ)) 0.2
        (List.replicate 256 (0.5 : ℝ)) 0 0) ∧
    euclideanNorm ((updateMemoryCore defaultConfig "u1"
        (List.replicate 256 (0.1 : ℝ)) 0.2
        (List.replicate 256 (0.5 : ℝ)) 0 0).memoryState.state) = 0 ∧
    ¬ |euclideanNorm ((updateMemoryCore defaultConfig "u1"
        (List.replicate 256 (0.1 : ℝ)) 0.2
        (List.replicate 256 (0.5 : ℝ)) 0 0).memoryState.state) - 1|
      ≤ 1e-6 := by
  have hnl : ¬ (defaultConfig.SIGNIFICANCE_THRESHOLD ≤ (0.2 : ℝ)) := by
    norm_num [defaultConfig]
  have hstate : (updateMemoryCore defaultConfig "u1"
      (List.replicate 256 (0.1 : ℝ)) 0.2
      (List.replicate 256 (0.5 : ℝ)) 0 0).memoryState.state =
      List.replicate 256 (0 : ℝ) := by
    simp only [updateMemoryCore, getMemoryState, initializeMemory,
      applyTimeDecay, List.map_replicate]
    rw [if_neg hnl]
    norm_num
  have hnorm : euclideanNorm (List.replicate 256 (0 : ℝ)) = 0 := by
    simp [euclideanNorm, List.map_replicate, List.sum_replicate]
  have hv1 : ¬ ((0.2 : ℝ) < 0 ∨ (1 : ℝ) < 0.2) := by norm_num
  refine ⟨?_, ?_, ?_⟩
  · simp [updateMemory, hv1, defaultConfig]
  · rw [hstate]
    exact hnorm
  · rw [hstate, hnorm]
    norm_num

/-! ### Claim C5 -/

/-- Claim C5 is refuted by the code under the default delta: for ten
operations of equal epsilon 0.1, the advanced-composition factor
`sqrt(2 * ln(200000))` is about 4.94, so the aggregate loss is about
1.56 — strictly greater than `10 * 0.1`, while the spec and the
repository test suite require strictly less. -/
theorem C5_aggregate_loss_exceeds_linear :
    (10 : ℝ) * 0.1 < calculateAggregateLoss defaultConfig
      (List.replicate 10 (0.1 : ℝ)) := by
  have hsum : ((List.replicate 10 (0.1 : ℝ)).map fun epsilon =>
      epsilon * epsilon).sum = 1 / 10 := by
    rw [List.map_replicate, List.sum_replicate, nsmul_eq_mul]
    norm_num
  have hlog : (5 : ℝ) < Real.log (2 / defaultConfig.PRIVACY_DELTA) := by
    rw [show (2 : ℝ) / defaultConfig.PRIVACY_DELTA = 200000 by
      norm_num [defaultConfig]]
    rw [Real.lt_log_iff_exp_lt (by norm_num : (0 : ℝ) < 200000)]
    have h5 : Real.exp 5 = Real.exp 1 ^ (5 : ℕ) := by
      rw [← Real.exp_nat_mul]
      norm_num
    rw [h5]
    calc Real.exp 1 ^ (5 : ℕ) ≤ 2.7182818286 ^ (5 : ℕ) := by
          apply pow_le_pow_left₀ (Real.exp_pos 1).le Real.exp_one_lt_d9.le
      _ < 200000 := by norm_num
  unfold calculateAggregateLoss
  dsimp only
  rw [hsum]
  have h2L : (0 : ℝ) ≤ 2 * Real.log (2 / defaultConfig.PRIVACY_DELTA) := by
    linarith
  rw [← Real.sqrt_mul h2L]
  rw [show (10 : ℝ) * 0.1 = 1 by norm_num]
  rw [Real.lt_sqrt (by norm_num : (0 : ℝ) ≤ 1)]
  nlinarith

/-! ### Claim C3: auxiliary bounds -/

/-- Auxiliary: `sinh x ≤ x * cosh x` for nonnegative `x`. -/
theorem sinh_le_mul_cosh {x : ℝ} (hx : 0 ≤ x) :
    Real.sinh x ≤ x * Real.cosh x := by
  have hmono : MonotoneOn (fun y : ℝ => y * Real.cosh y - Real.sinh y)
      (Set.Ici 0) := by
    apply monotoneOn_of_deriv_nonneg (convex_Ici 0)
    · exact ((continuous_id.mul Real.continuous_cosh).sub
        Real.continuous_sinh).continuousOn
    · exact ((differentiable_id.mul Real.differentiable_cosh).sub
        Real.differentiable_sinh).differentiableOn
    · intro y hy
      rw [interior_Ici, Set.mem_Ioi] at hy
      have hD : HasDerivAt (fun y : ℝ => y * Real.cosh y - Real.sinh y)
          (1 * Real.cosh y + y * Real.sinh y - Real.cosh y) y :=
        ((hasDerivAt_id y).mul (Real.hasDerivAt_cosh y)).sub
          (Real.hasDerivAt_sinh y)
      rw [hD.deriv]
      have : 0 ≤ y * Real.sinh y :=
        mul_nonneg hy.le (Real.sinh_nonneg_iff.mpr hy.le)
      linarith
  have h0 := hmono Set.left_mem_Ici (Set.mem_Ici.mpr hx) hx
  simp only [Real.sinh_zero, Real.cosh_zero, zero_mul, sub_zero, mul_one] at h0
  linarith [h0]

/-- Auxiliary: the hyperbolic tangent never exceeds its argument in
absolute value. -/
theorem abs_tanh_le_abs (x : ℝ) : |Real.tanh x| ≤ |x| := by
  have key : ∀ y : ℝ, 0 ≤ y → Real.tanh y ≤ y := by
    intro y hy
    rw [Real.tanh_eq_sinh_div_cosh, div_le_iff₀ (Real.cosh_pos y)]
    exact sinh_le_mul_cosh hy
  have hnn : ∀ y : ℝ, 0 ≤ y → 0 ≤ Real.tanh y := by
    intro y hy
    rw [Real.tanh_eq_sinh_div_cosh]
    exact div_nonneg (Real.sinh_nonneg_iff.mpr hy) (Real.cosh_pos y).le
  rcases le_total 0 x with hx | hx
  · rw [abs_of_nonneg (hnn x hx), abs_of_nonneg hx]
    exact key x hx
  · have h1 : 0 ≤ Real.tanh (-x) := hnn _ (neg_nonneg.mpr hx)
    have h2 : Real.tanh (-x) ≤ -x := key _ (neg_nonneg.mpr hx)
    rw [Real.tanh_neg] at h1 h2
    rw [abs_of_nonpos (by linarith), abs_of_nonpos hx]
    linarith

/-- Auxiliary: the hyperbolic tangent is bounded by 1 in absolute
value. -/
theorem abs_tanh_le_one (x : ℝ) : |Real.tanh x| ≤ 1 := by
  have key : Real.sinh |x| ≤ Real.cosh |x| := by
    nlinarith [Real.cosh_sub_sinh |x|, Real.exp_pos (-|x|)]
  rw [Real.tanh_eq_sinh_div_cosh, abs_div, abs_of_pos (Real.cosh_pos x),
    div_le_one (Real.cosh_pos x), Real.abs_sinh]
  calc Real.sinh |x| ≤ Real.cosh |x| := key
    _ = Real.cosh x := Real.cosh_abs x

/-- Auxiliary: an in-range `getD` is a member of the list. -/
theorem getD_mem_of_lt {l : List ℝ} {i : ℕ} (hi : i < l.length) :
    l.getD i 0 ∈ l := by
  rw [List.getD_eq_getElem?_getD, List.getElem?_eq_getElem hi]
  exact List.getElem_mem hi

/-- Every entry of the decayed noise vector is at most 1/200 in absolute
value: the noise entries are at most 0.005 and the decay factor lies in
[0, 1] when time moves forward. -/
theorem decayed_noise_entry_bound (rand : List ℝ) (tLoad tNow : ℝ)
    (hrand : ∀ u ∈ rand, 0 ≤ u ∧ u ≤ 1) (ht : tLoad ≤ tNow) :
    ∀ x ∈ applyTimeDecay (rand.map fun u => (u - 0.5) * 0.01) tLoad tNow
      0.99, |x| ≤ 1 / 200 := by
  intro x hx
  unfold applyTimeDecay at hx
  dsimp only at hx
  rw [List.mem_map] at hx
  obtain ⟨v, hv, rfl⟩ := hx
  rw [List.mem_map] at hv
  obtain ⟨u, hu, rfl⟩ := hv
  obtain ⟨hu0, hu1⟩ := hrand u hu
  have hd0 : (0 : ℝ) ≤ 0.99 ^ ((tNow - tLoad) / (1000 * 60 * 60 * 24)) :=
    Real.rpow_nonneg (by norm_num) _
  have hd1 : (0.99 : ℝ) ^ ((tNow - tLoad) / (1000 * 60 * 60 * 24)) ≤ 1 :=
    Real.rpow_le_one (by norm_num) (by norm_num)
      (div_nonneg (sub_nonneg.mpr ht) (by norm_num))
  rw [abs_mul, abs_mul]
  have h1 : |u - 0.5| ≤ 0.5 := abs_le.mpr ⟨by linarith, by linarith⟩
  have h3 : |(0.99 : ℝ) ^ ((tNow - tLoad) / (1000 * 60 * 60 * 24))| ≤ 1 := by
    rw [abs_of_nonneg hd0]
    exact hd1
  have h4 : |u - 0.5| * |(0.01 : ℝ)| ≤ 1 / 200 := by
    rw [show |(0.01 : ℝ)| = 0.01 by norm_num]
    nlinarith
  calc |u - 0.5| * |(0.01 : ℝ)| *
        |(0.99 : ℝ) ^ ((tNow - tLoad) / (1000 * 60 * 60 * 24))| ≤
        (1 / 200) * 1 :=
      mul_le_mul h4 h3 (abs_nonneg _) (by norm_num)
    _ = 1 / 200 := by ring

/-- Every entry of the gated update is at most 11/2000 in absolute value
when the decayed entries are at most 1/200 and the learning rate is at
most 1/1000. -/
theorem applyLSTMUpdate_entry_bound (decayed emb : List ℝ) (lr : ℝ)
    (hlr0 : 0 ≤ lr) (hlr1 : lr ≤ 1 / 1000)
    (hdec : ∀ x ∈ decayed, |x| ≤ 1 / 200) :
    ∀ x ∈ applyLSTMUpdate decayed emb lr, |x| ≤ 11 / 2000 := by
  intro x hx
  unfold applyLSTMUpdate at hx
  rw [List.mem_map] at hx
  obtain ⟨i, hi, rfl⟩ := hx
  rw [List.mem_range] at hi
  dsimp only
  have hgd : |decayed.getD i 0| ≤ 1 / 200 := hdec _ (getD_mem_of_lt hi)
  have t1 : |Real.tanh (decayed.getD i 0 * 0.9)| ≤ 9 / 2000 := by
    calc |Real.tanh (decayed.getD i 0 * 0.9)| ≤ |decayed.getD i 0 * 0.9| :=
        abs_tanh_le_abs _
      _ = |decayed.getD i 0| * 0.9 := by
          rw [abs_mul]
          norm_num
      _ ≤ (1 / 200) * 0.9 := by nlinarith
      _ = 9 / 2000 := by norm_num
  have t2 : |Real.tanh (emb.getD i 0)| ≤ 1 := abs_tanh_le_one _
  have h1l : |1 - lr| ≤ 1 := abs_le.mpr ⟨by linarith, by linarith⟩
  have hlr : |lr| ≤ 1 / 1000 := abs_le.mpr ⟨by linarith, hlr1⟩
  calc |Real.tanh (decayed.getD i 0 * 0.9) * (1 - lr) +
        Real.tanh (emb.getD i 0) * lr| ≤
        |Real.tanh (decayed.getD i 0 * 0.9) * (1 - lr)| +
          |Real.tanh (emb.getD i 0) * lr| := abs_add _ _
    _ = |Real.tanh (decayed.getD i 0 * 0.9)| * |1 - lr| +
          |Real.tanh (emb.getD i 0)| * |lr| := by rw [abs_mul, abs_mul]
    _ ≤ (9 / 2000) * 1 + 1 * (1 / 1000) :=
        add_le_add (mul_le_mul t1 h1l (abs_nonneg _) (by norm_num))
          (mul_le_mul t2 hlr (abs_nonneg _) (by norm_num))
    _ = 11 / 2000 := by norm_num

/-- Per-coordinate distance between the gated update and the decayed
state is at most 21/2000. -/
theorem lstm_diff_bound (decayed emb : List ℝ) (lr : ℝ)
    (hlr0 : 0 ≤ lr) (hlr1 : lr ≤ 1 / 1000)
    (hdec : ∀ x ∈ decayed, |x| ≤ 1 / 200) :
    ∀ i < decayed.length,
      |(applyLSTMUpdate decayed emb lr).getD i 0 - decayed.getD i 0| ≤
        21 / 2000 := by
  intro i hi
  have hLlen : (applyLSTMUpdate decayed emb lr).length = decayed.length := by
    unfold applyLSTMUpdate
    rw [List.length_map, List.length_range]
  have hLmem : (applyLSTMUpdate decayed emb lr).getD i 0 ∈
      applyLSTMUpdate decayed emb lr := by
    apply getD_mem_of_lt
    rw [hLlen]
    exact hi
  have hL := applyLSTMUpdate_entry_bound decayed emb lr hlr0 hlr1 hdec _ hLmem
  have hd : |decayed.getD i 0| ≤ 1 / 200 := hdec _ (getD_mem_of_lt hi)
  have htri := abs_add ((applyLSTMUpdate decayed emb lr).getD i 0)
    (-(decayed.getD i 0))
  rw [abs_neg] at htri
  rw [sub_eq_add_neg]
  linarith

/-- With per-coordinate differences at most 21/2000 over 256
coordinates, the reported Euclidean state change is below 1. -/
theorem calculateStateChange_bound (decayed newS : List ℝ)
    (hdiff : ∀ i < decayed.length,
      |newS.getD i 0 - decayed.getD i 0| ≤ 21 / 2000)
    (hlen : decayed.length = 256) :
    calculateStateChange decayed newS < 1 := by
  unfold calculateStateChange
  rw [Real.sqrt_lt' (by norm_num : (0 : ℝ) < 1), hlen]
  have hterm : ∀ x ∈ (List.range 256).map fun i =>
      (newS.getD i 0 - decayed.getD i 0) * (newS.getD i 0 - decayed.getD i 0),
      x ≤ (21 / 2000 : ℝ) * (21 / 2000) := by
    intro x hx
    rw [List.mem_map] at hx
    obtain ⟨i, hi, rfl⟩ := hx
    rw [List.mem_range] at hi
    have hb := hdiff i (by rw [hlen]; exact hi)
    have habs := abs_mul_abs_self (newS.getD i 0 - decayed.getD i 0)
    nlinarith [abs_nonneg (newS.getD i 0 - decayed.getD i 0)]
  have hsum := List.sum_le_card_nsmul _ _ hterm
  rw [List.length_map, List.length_range, nsmul_eq_mul] at hsum
  have hfin : ((256 : ℕ) : ℝ) * ((21 / 2000 : ℝ) * (21 / 2000)) < 1 ^ 2 := by
    norm_num
  linarith

/-! ### Claim C3 -/

set_option maxRecDepth 8000 in
/-- Claim C3: at the default configuration, every valid `updateMemory`
call — including one whose embedding entries are all 1e10 — produces a
memory vector with every entry bounded (no NaN or Inf can arise), and
the reported state-change metric stays strictly below the gradient clip
norm plus the tolerance 1e-6. -/
theorem C3_no_blowup_and_clipped_change (userId : String)
    (eventEmbedding : List ℝ) (significance : ℝ) (rand : List ℝ)
    (tLoad tNow : ℝ)
    (hdim : eventEmbedding.length = defaultConfig.MEMORY_DIMENSION)
    (hrand : ∀ u ∈ rand, 0 ≤ u ∧ u ≤ 1) (hrlen : rand.length = 256)
    (hsig0 : 0 ≤ significance) (hsig1 : significance ≤ 1)
    (ht : tLoad ≤ tNow) :
    updateMemory defaultConfig userId eventEmbedding significance rand
        tLoad tNow =
      .ok (updateMemoryCore defaultConfig userId eventEmbedding significance
        rand tLoad tNow) ∧
    (∀ x ∈ (updateMemoryCore defaultConfig userId eventEmbedding
        significance rand tLoad tNow).memoryState.state, |x| ≤ 1) ∧
    (updateMemoryCore defaultConfig userId eventEmbedding significance rand
        tLoad tNow).metrics.stateChange <
      defaultConfig.GRADIENT_CLIP_NORM + 1e-6 := by
  have hval : ¬ (significance < 0 ∨ 1 < significance) := by
    push_neg
    exact ⟨hsig0, hsig1⟩
  have hdec := decayed_noise_entry_bound rand tLoad tNow hrand ht
  have hdlen : (applyTimeDecay (rand.map fun u => (u - 0.5) * 0.01) tLoad
      tNow 0.99).length = 256 := by
    unfold applyTimeDecay
    rw [List.length_map, List.length_map, hrlen]
  have hlr0 : 0 ≤ defaultConfig.LEARNING_RATE * significance :=
    mul_nonneg (by norm_num [defaultConfig]) hsig0
  have hlr1 : defaultConfig.LEARNING_RATE * significance ≤ 1 / 1000 := by
    calc defaultConfig.LEARNING_RATE * significance ≤
        defaultConfig.LEARNING_RATE * 1 :=
        mul_le_mul_of_nonneg_left hsig1 (by norm_num [defaultConfig])
      _ = 1 / 1000 := by norm_num [defaultConfig]
  have hchange : calculateStateChange
      (applyTimeDecay (rand.map fun u => (u - 0.5) * 0.01) tLoad tNow 0.99)
      (applyLSTMUpdate
        (applyTimeDecay (rand.map fun u => (u - 0.5) * 0.01) tLoad tNow 0.99)
        eventEmbedding (defaultConfig.LEARNING_RATE * significance)) < 1 :=
    calculateStateChange_bound _ _
      (lstm_diff_bound _ _ _ hlr0 hlr1 hdec) hdlen
  have hnoclip : ¬ (defaultConfig.GRADIENT_CLIP_NORM <
      calculateStateChange
        (applyTimeDecay (rand.map fun u => (u - 0.5) * 0.01) tLoad tNow 0.99)
        (applyLSTMUpdate
          (applyTimeDecay (rand.map fun u => (u - 0.5) * 0.01) tLoad tNow
            0.99)
          eventEmbedding (defaultConfig.LEARNING_RATE * significance))) := by
    push_neg
    rw [show defaultConfig.GRADIENT_CLIP_NORM = (1.0 : ℝ) from rfl]
    norm_num
    linarith
  refine ⟨?_, ?_, ?_⟩
  · simp [updateMemory, hval, hdim]
  · intro x hx
    simp only [updateMemoryCore, getMemoryState, initializeMemory] at hx
    by_cases hlearn : defaultConfig.SIGNIFICANCE_THRESHOLD ≤ significance
    · rw [if_pos hlearn] at hx
      rw [if_neg hnoclip] at hx
      have := applyLSTMUpdate_entry_bound
        (applyTimeDecay (rand.map fun u => (u - 0.5) * 0.01) tLoad tNow 0.99)
        eventEmbedding (defaultConfig.LEARNING_RATE * significance)
        hlr0 hlr1 hdec x hx
      linarith
    · rw [if_neg hlearn] at hx
      have := hdec x hx
      linarith
  · simp only [updateMemoryCore, getMemoryState, initializeMemory]
    by_cases hlearn : defaultConfig.SIGNIFICANCE_THRESHOLD ≤ significance
    · rw [if_pos hlearn, if_neg hnoclip]
      rw [show defaultConfig.GRADIENT_CLIP_NORM = (1.0 : ℝ) from rfl]
      dsimp only
      norm_num
      linarith
    · rw [if_neg hlearn]
      rw [show defaultConfig.GRADIENT_CLIP_NORM = (1.0 : ℝ) from rfl]
      dsimp only
      norm_num

/-- Witness for C3: an embedding with all entries 1e10, full
significance, and forward time. -/
theorem C3_no_blowup_and_clipped_change_witness :
    (updateMemoryCore defaultConfig "u1"
        (List.replicate 256 (1e10 : ℝ)) 1
        (List.replicate 256 (0.5 : ℝ)) 0 0).metrics.stateChange <
      defaultConfig.GRADIENT_CLIP_NORM + 1e-6 :=
  (C3_no_blowup_and_clipped_change "u1" (List.replicate 256 1e10) 1
    (List.replicate 256 0.5) 0 0 (by norm_num [defaultConfig])
    (by intro u hu; rw [List.eq_of_mem_replicate hu]; norm_num)
    (by norm_num) (by norm_num) (by norm_num) le_rfl).2.2

end Woohan
